import Mathlib

/-!
Verification of the AIStudio Python daemon (aistudio_daemon.py) and its
backend shims (mlx_image_gen.py, mlx_music_gen.py, mlx_voice_clone.py,
mlx_whisper_stt.py) against the repository specification.

Modelling conventions:
* JSON values are the inductive `JValue`; JSON numbers are modelled as ℚ
  (json.loads yields int or float; ℚ covers both exactly for the values the
  daemon manipulates).
* A Python dict literal `{"k": v, **result}` is an association list with
  later-binding-wins lookup (`lookupLast`), matching dict semantics.
* Python exceptions are `Except`: the daemon-level uncaught exception type is
  `PyExc`; exceptions raised by backend calls are carried as their `str(e)`
  message in `Except String`, because `handle_request` only ever observes the
  message.
* The external inference libraries (diffusionkit/mflux, mlx_tts, f5-tts-mlx,
  mlx-whisper, MusicGen) are opaque: each backend call the daemon can make is
  a field of the `Backends` structure, returning either a result field list
  (the dict the shim returns) or an exception message.
* numpy float32 arrays are modelled as `List ℚ`; float arithmetic is exact
  rational arithmetic.  `astype(np.int16)` is truncation toward zero followed
  by the wrap-around of conversion to a 16-bit two's-complement integer, and
  `tobytes()` emits little-endian pairs (the target platform, Apple Silicon,
  is little-endian).
* `struct.pack("<I", n)` / `("<H", n)` are modelled for in-range arguments
  (the out-of-range struct.error case is excluded by explicit hypotheses in
  the theorems that mention packed fields).
-/

/-- A JSON value as produced by json.loads. -/
inductive JValue where
  | null : JValue
  | bool (b : Bool) : JValue
  | num (q : ℚ) : JValue
  | str (s : String) : JValue
  | arr (items : List JValue) : JValue
  | obj (fields : List (String × JValue)) : JValue

/-- Lookup in an association list where a later binding for the same key wins,
matching Python dict-literal semantics for `{"k": v, **rest}`. -/
def lookupLast : List (String × JValue) → String → Option JValue
  | [], _ => none
  | p :: fs, k =>
    match lookupLast fs k with
    | some v => some v
    | none => if p.1 = k then some p.2 else none

/-- `d.get(k, default)` on a dict modelled as a field list. -/
def objGetD (fs : List (String × JValue)) (k : String) (d : JValue) : JValue :=
  (lookupLast fs k).getD d

/-- Python `command == "lit"` where `command` is an arbitrary JSON value:
true exactly for an equal string; any non-string JSON value compares unequal
to a str. -/
def jEqStr : JValue → String → Bool
  | .str s, t => s = t
  | _, _ => false

/-- Python type name of a JSON value, used in AttributeError messages.
(json.loads distinguishes int from float; `num` merges them, so an integral
rational is reported as int.) -/
def pyTypeName : JValue → String
  | .null => "NoneType"
  | .bool _ => "bool"
  | .num q => if q.den = 1 then "int" else "float"
  | .str _ => "str"
  | .arr _ => "list"
  | .obj _ => "dict"

/-- Best-effort Python `str()` of a JSON value, used only to build the
`Unknown command: {command}` message; the theorems below only rely on its
value at strings, where it is exact. -/
def JValue.pyFormat : JValue → String
  | .str s => s
  | .num q => toString q
  | .bool b => if b then "True" else "False"
  | .null => "None"
  | .arr _ => "<list>"
  | .obj _ => "<dict>"

/-- An exception that escapes handle_request uncaught. -/
inductive PyExc where
  | attributeError (msg : String) : PyExc
deriving DecidableEq

/-- The backend calls handle_request can make, one field per call site.
Each returns either the result dict's field list or the raised exception's
message; the lazy getters' own import failures are folded into the same
`Except` since they are raised inside the same try block. -/
structure Backends where
  generate_image : JValue → JValue → JValue → JValue → JValue → JValue → JValue →
    Except String (List (String × JValue))
  img2img : JValue → JValue → JValue → JValue → JValue → JValue →
    Except String (List (String × JValue))
  list_models : Except String JValue
  tts_generate : JValue → JValue → JValue → JValue →
    Except String (List (String × JValue))
  list_engines : Except String JValue
  list_voices : JValue → Except String JValue
  voice_clone : JValue → JValue → JValue →
    Except String (List (String × JValue))
  transcribe : JValue → JValue → JValue →
    Except String (List (String × JValue))
  generate_music : JValue → JValue → JValue →
    Except String (List (String × JValue))

/-- `{"request_id": rid, **result}` when a backend succeeds, and the
`except Exception` branch `{"request_id": rid, "error": str(e)}` when it
raises. -/
def mkResp (rid : JValue) : Except String (List (String × JValue)) → JValue
  | .ok fields => .obj (("request_id", rid) :: fields)
  | .error e => .obj [("request_id", rid), ("error", .str e)]

/-- The body of handle_request's try block: the elif chain over the command.
`fs` is the request dict's field list; every `request.get` inside the try is
`objGetD fs`. -/
def dispatchTry (B : Backends) (command request_id : JValue)
    (fs : List (String × JValue)) : JValue :=
  if jEqStr command "health" then
    .obj [("request_id", request_id), ("status", .str "ok")]
  else if jEqStr command "generate_image" then
    mkResp request_id (B.generate_image
      (objGetD fs "prompt" (.str "")) (objGetD fs "negative_prompt" (.str ""))
      (objGetD fs "steps" (.num 20)) (objGetD fs "cfg_scale" (.num 7))
      (objGetD fs "width" (.num 512)) (objGetD fs "height" (.num 512))
      (objGetD fs "seed" (.num (-1))))
  else if jEqStr command "img2img" then
    mkResp request_id (B.img2img
      (objGetD fs "prompt" (.str "")) (objGetD fs "init_image" (.str ""))
      (objGetD fs "denoising_strength" (.num (3/4)))
      (objGetD fs "steps" (.num 20)) (objGetD fs "cfg_scale" (.num 7))
      (objGetD fs "seed" (.num (-1))))
  else if jEqStr command "list_image_models" then
    match B.list_models with
    | .ok models => .obj [("request_id", request_id), ("models", models)]
    | .error e => .obj [("request_id", request_id), ("error", .str e)]
  else if jEqStr command "tts" then
    mkResp request_id (B.tts_generate
      (objGetD fs "text" (.str "")) (objGetD fs "voice" (.str "default"))
      (objGetD fs "speed" (.num 1)) (objGetD fs "engine" (.str "kokoro")))
  else if jEqStr command "list_tts_engines" then
    match B.list_engines with
    | .ok engines => .obj [("request_id", request_id), ("engines", engines)]
    | .error e => .obj [("request_id", request_id), ("error", .str e)]
  else if jEqStr command "list_voices" then
    match B.list_voices (objGetD fs "engine" (.str "kokoro")) with
    | .ok voices => .obj [("request_id", request_id), ("voices", voices)]
    | .error e => .obj [("request_id", request_id), ("error", .str e)]
  else if jEqStr command "voice_clone" then
    mkResp request_id (B.voice_clone
      (objGetD fs "text" (.str "")) (objGetD fs "reference_audio" (.str ""))
      (objGetD fs "speed" (.num 1)))
  else if jEqStr command "transcribe" then
    mkResp request_id (B.transcribe
      (objGetD fs "audio_file" (.str "")) (objGetD fs "model" (.str "base"))
      (objGetD fs "language" .null))
  else if jEqStr command "generate_music" then
    mkResp request_id (B.generate_music
      (objGetD fs "prompt" (.str "")) (objGetD fs "duration" (.num 10))
      (objGetD fs "model_size" (.str "small")))
  else if jEqStr command "cancel" then
    .obj [("request_id", request_id), ("status", .str "cancelled")]
  else
    .obj [("request_id", request_id),
          ("error", .str ("Unknown command: " ++ command.pyFormat))]

/-- handle_request: `request.get("command", "")` and
`request.get("request_id", "")` run before the try block, so on a non-dict
JSON value the AttributeError propagates out; once the request is a dict the
try/except makes the body total. -/
def handle_request (B : Backends) (request : JValue) : Except PyExc JValue :=
  match request with
  | .obj fs =>
    .ok (dispatchTry B (objGetD fs "command" (.str ""))
          (objGetD fs "request_id" (.str "")) fs)
  | v =>
    .error (.attributeError
      ("'" ++ pyTypeName v ++ "' object has no attribute 'get'"))

/-- The characters stripped by Python's `str.strip()` (the ASCII whitespace
set; the daemon's protocol is ASCII JSON lines). -/
def isPySpace (c : Char) : Bool :=
  c = ' ' || c = '\t' || c = '\n' || c = '\r' ||
  c = Char.ofNat 11 || c = Char.ofNat 12

/-- Python `line.strip()`. -/
def pyStrip (s : String) : String :=
  ⟨((s.data.dropWhile isPySpace).reverse.dropWhile isPySpace).reverse⟩

/-- One iteration of the main loop for a single input line:
`none` means the line was blank and silently skipped (no output);
`some (.ok resp)` means `resp` is written to stdout;
`some (.error exc)` means an exception escaped handle_request (only
json.JSONDecodeError is caught in main, so such an exception kills the loop).
`loads` is the opaque stdlib json.loads, returning the parsed value or the
decode error's str(e). -/
def processLine (loads : String → Except String JValue) (B : Backends)
    (line : String) : Option (Except PyExc JValue) :=
  let l := pyStrip line
  if l = "" then none
  else
    match loads l with
    | .error msg =>
      some (.ok (.obj [("error", .str ("Invalid JSON: " ++ msg))]))
    | .ok req => some (handle_request B req)

/-- The main loop over a (finite prefix of the) stdin line stream: the list
of responses written to stdout, and the uncaught exception that terminated
the loop, if any. -/
def mainLoop (loads : String → Except String JValue) (B : Backends) :
    List String → List JValue × Option PyExc
  | [] => ([], none)
  | line :: rest =>
    match processLine loads B line with
    | none => mainLoop loads B rest
    | some (.ok resp) =>
      let r := mainLoop loads B rest
      (resp :: r.1, r.2)
    | some (.error e) => ([], some e)

/-! ## WAV encoding (_array_to_wav in mlx_music_gen.py and mlx_voice_clone.py) -/

/-- Truncation toward zero of a rational, the rounding C (and numpy's
`astype`) applies when converting a float to an integer type. -/
def ratTrunc (q : ℚ) : ℤ :=
  if 0 ≤ q then ⌊q⌋ else ⌈q⌉

/-- Wrap an integer into the 16-bit two's-complement range, the overflow
behaviour of numpy's `astype(np.int16)`. -/
def int16wrap (i : ℤ) : ℤ :=
  (i + 32768) % 65536 - 32768

/-- `max(abs(audio_array.max()), abs(audio_array.min()))` on a nonempty
array (0 on an empty one, where neither encoder uses it): numpy's `.max()`
and `.min()` are left folds of max/min over the array. -/
def peakOf : List ℚ → ℚ
  | [] => 0
  | x :: xs => max |xs.foldl max x| |xs.foldl min x|

/-- `(x * 32767).astype(np.int16)` applied to one sample. -/
def toInt16 (q : ℚ) : ℤ :=
  int16wrap (ratTrunc (q * 32767))

/-- `struct.pack("<I", n)` for `0 ≤ n < 2^32` (out of range struct.pack
raises; theorems about packed fields carry the range hypothesis). -/
def packU32le (n : ℕ) : List ℕ :=
  [n % 256, n / 256 % 256, n / 65536 % 256, n / 16777216 % 256]

/-- `struct.pack("<H", n)` for `0 ≤ n < 2^16`. -/
def packU16le (n : ℕ) : List ℕ :=
  [n % 256, n / 256 % 256]

/-- The two little-endian bytes of one int16 sample in `int_data.tobytes()`. -/
def i16leBytes (i : ℤ) : List ℕ :=
  [(i.emod 65536).toNat % 256, (i.emod 65536).toNat / 256]

/-- The byte string built by both `_array_to_wav` bodies after the sample
array has been converted to int16: the 44-byte RIFF/WAVE header followed by
the PCM data, written field by field in source order. -/
def wavBytes (intData : List ℤ) (sampleRate : ℕ) : List ℕ :=
  [82, 73, 70, 70] ++
  packU32le (36 + intData.length * 2) ++
  [87, 65, 86, 69] ++
  [102, 109, 116, 32] ++
  packU32le 16 ++
  packU16le 1 ++
  packU16le 1 ++
  packU32le sampleRate ++
  packU32le (sampleRate * 2) ++
  packU16le 2 ++
  packU16le 16 ++
  [100, 97, 116, 97] ++
  packU32le (intData.length * 2) ++
  (intData.map i16leBytes).flatten

/-- mlx_music_gen.py lines 83-87: `if len(audio_array) > 0: peak =
max(abs(max), abs(min)); if peak > 1.0: audio_array = audio_array / peak`. -/
def MLXMusicGen.normalize : List ℚ → List ℚ
  | [] => []
  | x :: xs =>
    if 1 < peakOf (x :: xs) then (x :: xs).map (· / peakOf (x :: xs))
    else x :: xs

/-- mlx_music_gen.py `MLXMusicGen._array_to_wav`. -/
def MLXMusicGen.arrayToWav (samples : List ℚ) (sampleRate : ℕ) : List ℕ :=
  wavBytes ((MLXMusicGen.normalize samples).map toInt16) sampleRate

/-- mlx_voice_clone.py lines 117-118: `if audio_array.max() > 1.0 or
audio_array.min() < -1.0: audio_array = audio_array / max(abs(max),
abs(min))`.  numpy's `max()`/`min()` of a zero-size array raises ValueError,
which `_array_to_wav` does not catch. -/
def MLXVoiceClone.normalize : List ℚ → Except String (List ℚ)
  | [] =>
    .error "zero-size array to reduction operation maximum which has no identity"
  | x :: xs =>
    if 1 < xs.foldl max x ∨ xs.foldl min x < -1 then
      .ok ((x :: xs).map (· / peakOf (x :: xs)))
    else
      .ok (x :: xs)

/-- mlx_voice_clone.py `MLXVoiceClone._array_to_wav`. -/
def MLXVoiceClone.arrayToWav (samples : List ℚ) (sampleRate : ℕ) :
    Except String (List ℕ) :=
  (MLXVoiceClone.normalize samples).map
    (fun normalized => wavBytes (normalized.map toInt16) sampleRate)

/-! ## Lazy singleton getters (aistudio_daemon.py lines 18-63)

The five module-level handles `_image_gen`, `_tts`, `_voice_clone`,
`_whisper_stt`, `_music_gen` start as None.  Backend objects are identified
by a construction counter: `nextId` is the identity the next constructor
call would produce, so "the identical cached object" is equality of ids.
Constructor success (the library import succeeding) is assumed; an import
failure raises into handle_request's try and caches nothing, which none of
the claims below concern. -/

structure DaemonState where
  image_gen : Option ℕ
  tts : Option ℕ
  voice_clone : Option ℕ
  whisper_stt : Option ℕ
  music_gen : Option ℕ
  nextId : ℕ
deriving DecidableEq

/-- aistudio_daemon.py `get_image_gen`. -/
def get_image_gen (s : DaemonState) : ℕ × DaemonState :=
  match s.image_gen with
  | some h => (h, s)
  | none =>
    (s.nextId, { s with image_gen := some s.nextId, nextId := s.nextId + 1 })

/-- aistudio_daemon.py `get_tts`. -/
def get_tts (s : DaemonState) : ℕ × DaemonState :=
  match s.tts with
  | some h => (h, s)
  | none => (s.nextId, { s with tts := some s.nextId, nextId := s.nextId + 1 })

/-- aistudio_daemon.py `get_voice_clone`. -/
def get_voice_clone (s : DaemonState) : ℕ × DaemonState :=
  match s.voice_clone with
  | some h => (h, s)
  | none =>
    (s.nextId, { s with voice_clone := some s.nextId, nextId := s.nextId + 1 })

/-- aistudio_daemon.py `get_whisper`. -/
def get_whisper (s : DaemonState) : ℕ × DaemonState :=
  match s.whisper_stt with
  | some h => (h, s)
  | none =>
    (s.nextId, { s with whisper_stt := some s.nextId, nextId := s.nextId + 1 })

/-- aistudio_daemon.py `get_music_gen`. -/
def get_music_gen (s : DaemonState) : ℕ × DaemonState :=
  match s.music_gen with
  | some h => (h, s)
  | none =>
    (s.nextId, { s with music_gen := some s.nextId, nextId := s.nextId + 1 })

/-! ## Image generation seed handling (mlx_image_gen.py)

The diffusion pipeline, PIL decoding and PNG/base64 encoding are opaque
external calls, passed in as functions; `rand` is the value
`random.randint(0, 2**31 - 1)` would draw (its range is random.randint's
contract, a hypothesis of the seed theorem). -/

/-- The dict `{"images": [b64], "seed": seed}` returned by generate/img2img. -/
structure GenResult where
  images : List String
  seed : ℤ
deriving DecidableEq

/-- mlx_image_gen.py `MLXImageGenerator.generate`: `pipeline` maps
(prompt, negative_prompt, steps, cfg_scale, width, height, seed) to the
base64 PNG of the generated image. -/
def MLXImageGenerator.generate
    (pipeline : String → String → ℤ → ℚ → ℤ → ℤ → ℤ → String) (rand : ℤ)
    (prompt negative_prompt : String) (steps : ℤ) (cfg_scale : ℚ)
    (width height : ℤ) (seed : ℤ) : GenResult :=
  let seed := if seed = -1 then rand else seed
  { images := [pipeline prompt negative_prompt steps cfg_scale width height seed]
    seed := seed }

/-- mlx_image_gen.py `MLXImageGenerator.img2img`: `decodeInit` is
base64.b64decode followed by PIL Image.open; `pipeline` maps
(prompt, init_img, strength, steps, cfg_scale, seed) to the base64 PNG. -/
def MLXImageGenerator.img2img
    (pipeline : String → String → ℚ → ℤ → ℚ → ℤ → String)
    (decodeInit : String → String) (rand : ℤ) (prompt init_image : String)
    (denoising_strength : ℚ) (steps : ℤ) (cfg_scale : ℚ) (seed : ℤ) :
    GenResult :=
  let seed := if seed = -1 then rand else seed
  let init_img := decodeInit init_image
  { images := [pipeline prompt init_img denoising_strength steps cfg_scale seed]
    seed := seed }

/-! ## Auxiliary predicates and concrete instances used by the theorems -/

/-- The eleven command strings of the elif chain. -/
def knownCommands : List String :=
  ["health", "generate_image", "img2img", "list_image_models", "tts",
   "list_tts_engines", "list_voices", "voice_clone", "transcribe",
   "generate_music", "cancel"]

/-- The nine commands whose handler calls a backend (all but health and
cancel, which answer without calling out). -/
def backendCommands : List String :=
  ["generate_image", "img2img", "list_image_models", "tts",
   "list_tts_engines", "list_voices", "voice_clone", "transcribe",
   "generate_music"]

/-- No backend result dict contains a "request_id" key.  This holds for
every shim in the repository (their result dicts use the keys images, seed,
audio, sample_rate, duration, generation_time, text, language, segments) and
is what makes `{"request_id": rid, **result}` keep the daemon's rid. -/
def Backends.NoRid (B : Backends) : Prop :=
  (∀ a b c d e f g r, B.generate_image a b c d e f g = .ok r →
    lookupLast r "request_id" = none) ∧
  (∀ a b c d e f r, B.img2img a b c d e f = .ok r →
    lookupLast r "request_id" = none) ∧
  (∀ a b c d r, B.tts_generate a b c d = .ok r →
    lookupLast r "request_id" = none) ∧
  (∀ a b c r, B.voice_clone a b c = .ok r →
    lookupLast r "request_id" = none) ∧
  (∀ a b c r, B.transcribe a b c = .ok r →
    lookupLast r "request_id" = none) ∧
  (∀ a b c r, B.generate_music a b c = .ok r →
    lookupLast r "request_id" = none)

/-- Every backend call raises, with message `e` — the worst case for the
dispatch boundary's except clause. -/
def Backends.AllError (B : Backends) (e : String) : Prop :=
  (∀ a b c d f g h, B.generate_image a b c d f g h = .error e) ∧
  (∀ a b c d f g, B.img2img a b c d f g = .error e) ∧
  B.list_models = .error e ∧
  (∀ a b c d, B.tts_generate a b c d = .error e) ∧
  B.list_engines = .error e ∧
  (∀ a, B.list_voices a = .error e) ∧
  (∀ a b c, B.voice_clone a b c = .error e) ∧
  (∀ a b c, B.transcribe a b c = .error e) ∧
  (∀ a b c, B.generate_music a b c = .error e)

/-- A concrete backend environment whose calls all succeed with an empty
result dict, for instantiating the universally quantified theorems. -/
def BStub : Backends where
  generate_image := fun _ _ _ _ _ _ _ => .ok []
  img2img := fun _ _ _ _ _ _ => .ok []
  list_models := .ok (.arr [])
  tts_generate := fun _ _ _ _ => .ok []
  list_engines := .ok (.arr [])
  list_voices := fun _ => .ok (.arr [])
  voice_clone := fun _ _ _ => .ok []
  transcribe := fun _ _ _ => .ok []
  generate_music := fun _ _ _ => .ok []

/-- A concrete backend environment whose calls all raise with message
"boom". -/
def BFail : Backends where
  generate_image := fun _ _ _ _ _ _ _ => .error "boom"
  img2img := fun _ _ _ _ _ _ => .error "boom"
  list_models := .error "boom"
  tts_generate := fun _ _ _ _ => .error "boom"
  list_engines := .error "boom"
  list_voices := fun _ => .error "boom"
  voice_clone := fun _ _ _ => .error "boom"
  transcribe := fun _ _ _ => .error "boom"
  generate_music := fun _ _ _ => .error "boom"

/-- json.loads on the two concrete lines used by the closed theorems below:
the line `{` is not valid JSON and raises json.JSONDecodeError with this
message; the line `42` parses to the int 42. -/
def loadsStub : String → Except String JValue := fun s =>
  if s = "\x7b" then
    .error "Expecting property name enclosed in double quotes: line 1 column 2 (char 1)"
  else if s = "42" then .ok (.num 42)
  else .ok .null

/-- True when no exception escapes (the Except is a normal return). -/
def exceptIsOk {ε α : Type} : Except ε α → Bool
  | .ok _ => true
  | .error _ => false

/-- The field list of a normally returned response object ([] otherwise). -/
def respObjFields : Except PyExc JValue → List (String × JValue)
  | .ok (.obj fields) => fields
  | _ => []

/-! ## Theorems -/

/-- C10: a line that is empty or all-whitespace is silently skipped: the
daemon writes no response for it (not even a parse error) and the loop
continues with the next line. -/
theorem blank_line_skipped (loads : String → Except String JValue)
    (B : Backends) (line : String) (rest : List String)
    (h : ∀ c ∈ line.data, isPySpace c) :
    processLine loads B line = none ∧
    mainLoop loads B (line :: rest) = mainLoop loads B rest := by
  have h1 : line.data.dropWhile isPySpace = [] := by
    rw [List.dropWhile_eq_nil_iff]
    exact fun c hc => h c hc
  have hs : pyStrip line = "" := by
    unfold pyStrip
    rw [h1]
    rfl
  refine ⟨?_, ?_⟩
  · simp [processLine, hs]
  · simp [mainLoop, processLine, hs]

/-- C10 witness: the two-character line of a space and a tab produces no
output and is skipped. -/
theorem blank_line_skipped_witness :
    processLine loadsStub BStub " \t" = none ∧
    mainLoop loadsStub BStub [" \t"] = mainLoop loadsStub BStub [] :=
  blank_line_skipped loadsStub BStub " \t" [] (by decide)

/-- C4: a non-blank line that json.loads rejects produces exactly one
response line `{"error": "Invalid JSON: <message>"}` and the loop goes on to
process the remaining lines: the parse failure terminates only that request,
never the read loop. -/
theorem invalid_json_continues (loads : String → Except String JValue)
    (B : Backends) (line : String) (rest : List String) (msg : String)
    (h1 : pyStrip line ≠ "") (h2 : loads (pyStrip line) = .error msg) :
    processLine loads B line =
      some (.ok (.obj [("error", .str ("Invalid JSON: " ++ msg))])) ∧
    mainLoop loads B (line :: rest) =
      (JValue.obj [("error", .str ("Invalid JSON: " ++ msg))] ::
        (mainLoop loads B rest).1,
       (mainLoop loads B rest).2) := by
  refine ⟨?_, ?_⟩
  · simp [processLine, h1, h2]
  · simp [mainLoop, processLine, h1, h2]

/-- C4 witness: the malformed line `{` yields the parse-error response and
the loop still processes a following health request. -/
theorem invalid_json_continues_witness :
    processLine loadsStub BStub "\x7b" =
      some (.ok (.obj [("error", .str
        "Invalid JSON: Expecting property name enclosed in double quotes: line 1 column 2 (char 1)")])) :=
  (invalid_json_continues loadsStub BStub "\x7b" [] _ (by decide) rfl).1

/-- C8: a line that is valid JSON but not a JSON object reaches
`request.get("command", "")` before the try block, raising AttributeError;
main catches only json.JSONDecodeError, so the exception escapes
handle_request, no response is written for that line or any later one, and
the loop terminates. -/
theorem non_object_json_crashes (B : Backends)
    (loads : String → Except String JValue) (rest : List String)
    (hl : loads "42" = .ok (.num 42)) :
    handle_request B (.num 42) =
      .error (.attributeError "'int' object has no attribute 'get'") ∧
    mainLoop loads B ("42" :: rest) =
      ([], some (.attributeError "'int' object has no attribute 'get'")) := by
  have hh : handle_request B (.num 42) =
      .error (.attributeError "'int' object has no attribute 'get'") := rfl
  have hstrip : pyStrip "42" = "42" := by decide
  refine ⟨hh, ?_⟩
  simp [mainLoop, processLine, hstrip, hl, hh]

/-- C8 witness: with the concrete loads stub, the line `42` kills the loop
even though another request follows it. -/
theorem non_object_json_crashes_witness :
    mainLoop loadsStub BStub ["42", "{}"] =
      ([], some (.attributeError "'int' object has no attribute 'get'")) :=
  (non_object_json_crashes BStub loadsStub ["{}"] rfl).2

/-- C7: each per-backend getter is a lazy singleton: with the handle unset it
constructs the backend once (the freshly constructed object) and caches it;
with the handle set it returns the cached object and leaves the state
untouched; a second call after any call returns the identical object; and no
getter touches any other backend's handle. -/
theorem lazy_singleton_getters (s : DaemonState) :
    (s.image_gen = none → get_image_gen s =
      (s.nextId, { s with image_gen := some s.nextId, nextId := s.nextId + 1 })) ∧
    (∀ h, s.image_gen = some h → get_image_gen s = (h, s)) ∧
    get_image_gen (get_image_gen s).2 = ((get_image_gen s).1, (get_image_gen s).2) ∧
    ((get_image_gen s).2.tts = s.tts ∧ (get_image_gen s).2.voice_clone = s.voice_clone ∧
     (get_image_gen s).2.whisper_stt = s.whisper_stt ∧
     (get_image_gen s).2.music_gen = s.music_gen) ∧
    (s.tts = none → get_tts s =
      (s.nextId, { s with tts := some s.nextId, nextId := s.nextId + 1 })) ∧
    (∀ h, s.tts = some h → get_tts s = (h, s)) ∧
    get_tts (get_tts s).2 = ((get_tts s).1, (get_tts s).2) ∧
    ((get_tts s).2.image_gen = s.image_gen ∧ (get_tts s).2.voice_clone = s.voice_clone ∧
     (get_tts s).2.whisper_stt = s.whisper_stt ∧ (get_tts s).2.music_gen = s.music_gen) ∧
    (s.voice_clone = none → get_voice_clone s =
      (s.nextId, { s with voice_clone := some s.nextId, nextId := s.nextId + 1 })) ∧
    (∀ h, s.voice_clone = some h → get_voice_clone s = (h, s)) ∧
    get_voice_clone (get_voice_clone s).2 =
      ((get_voice_clone s).1, (get_voice_clone s).2) ∧
    ((get_voice_clone s).2.image_gen = s.image_gen ∧ (get_voice_clone s).2.tts = s.tts ∧
     (get_voice_clone s).2.whisper_stt = s.whisper_stt ∧
     (get_voice_clone s).2.music_gen = s.music_gen) ∧
    (s.whisper_stt = none → get_whisper s =
      (s.nextId, { s with whisper_stt := some s.nextId, nextId := s.nextId + 1 })) ∧
    (∀ h, s.whisper_stt = some h → get_whisper s = (h, s)) ∧
    get_whisper (get_whisper s).2 = ((get_whisper s).1, (get_whisper s).2) ∧
    ((get_whisper s).2.image_gen = s.image_gen ∧ (get_whisper s).2.tts = s.tts ∧
     (get_whisper s).2.voice_clone = s.voice_clone ∧
     (get_whisper s).2.music_gen = s.music_gen) ∧
    (s.music_gen = none → get_music_gen s =
      (s.nextId, { s with music_gen := some s.nextId, nextId := s.nextId + 1 })) ∧
    (∀ h, s.music_gen = some h → get_music_gen s = (h, s)) ∧
    get_music_gen (get_music_gen s).2 =
      ((get_music_gen s).1, (get_music_gen s).2) ∧
    ((get_music_gen s).2.image_gen = s.image_gen ∧ (get_music_gen s).2.tts = s.tts ∧
     (get_music_gen s).2.voice_clone = s.voice_clone ∧
     (get_music_gen s).2.whisper_stt = s.whisper_stt) := by
  obtain ⟨ig, t, vc, ws, mg, n⟩ := s
  cases ig <;> cases t <;> cases vc <;> cases ws <;> cases mg <;>
    simp [get_image_gen, get_tts, get_voice_clone, get_whisper, get_music_gen]

/-- C7 witness: from the all-None initial state, the first call constructs
object 0 and caches it. -/
theorem lazy_singleton_getters_witness :
    get_image_gen ⟨none, none, none, none, none, 0⟩ =
      (0, ⟨some 0, none, none, none, none, 1⟩) :=
  (lazy_singleton_getters ⟨none, none, none, none, none, 0⟩).1 rfl

/-- C9: generate and img2img echo a non--1 request seed unchanged; a seed of
-1 is replaced by the fresh randint draw, which lies in [0, 2³¹-1] and is
the seed actually passed to the diffusion pipeline; and in both operations
the image is generated with the very seed that is returned. -/
theorem seed_echo_or_fresh
    (pipeline : String → String → ℤ → ℚ → ℤ → ℤ → ℤ → String)
    (pipeline2 : String → String → ℚ → ℤ → ℚ → ℤ → String)
    (decodeInit : String → String) (rand : ℤ)
    (prompt negative_prompt init_image : String) (steps : ℤ)
    (cfg_scale denoising_strength : ℚ) (width height : ℤ) (seed : ℤ)
    (hrand : 0 ≤ rand ∧ rand ≤ 2 ^ 31 - 1) :
    (seed ≠ -1 →
      (MLXImageGenerator.generate pipeline rand prompt negative_prompt steps
        cfg_scale width height seed).seed = seed ∧
      (MLXImageGenerator.img2img pipeline2 decodeInit rand prompt init_image
        denoising_strength steps cfg_scale seed).seed = seed) ∧
    (seed = -1 →
      (MLXImageGenerator.generate pipeline rand prompt negative_prompt steps
        cfg_scale width height seed).seed = rand ∧
      (MLXImageGenerator.img2img pipeline2 decodeInit rand prompt init_image
        denoising_strength steps cfg_scale seed).seed = rand ∧
      0 ≤ (MLXImageGenerator.generate pipeline rand prompt negative_prompt steps
        cfg_scale width height seed).seed ∧
      (MLXImageGenerator.generate pipeline rand prompt negative_prompt steps
        cfg_scale width height seed).seed ≤ 2 ^ 31 - 1) ∧
    (MLXImageGenerator.generate pipeline rand prompt negative_prompt steps
      cfg_scale width height seed).images =
      [pipeline prompt negative_prompt steps cfg_scale width height
        (MLXImageGenerator.generate pipeline rand prompt negative_prompt steps
          cfg_scale width height seed).seed] ∧
    (MLXImageGenerator.img2img pipeline2 decodeInit rand prompt init_image
      denoising_strength steps cfg_scale seed).images =
      [pipeline2 prompt (decodeInit init_image) denoising_strength steps cfg_scale
        (MLXImageGenerator.img2img pipeline2 decodeInit rand prompt init_image
          denoising_strength steps cfg_scale seed).seed] := by
  obtain ⟨hr1, hr2⟩ := hrand
  have hr2' : rand ≤ 2147483647 := by omega
  by_cases h : seed = -1 <;>
    simp [MLXImageGenerator.generate, MLXImageGenerator.img2img, h, hr1, hr2']

/-- C9 witness: at seed 7 with draw 5 the returned seed is 7; the range
hypothesis is discharged at the concrete draw. -/
theorem seed_echo_or_fresh_witness :
    (MLXImageGenerator.generate (fun _ _ _ _ _ _ _ => "png") 5 "p" "" 20 7
      512 512 7).seed = 7 :=
  ((seed_echo_or_fresh (fun _ _ _ _ _ _ _ => "png")
    (fun _ _ _ _ _ _ => "png") (fun s => s) 5 "p" "" "" 20 7 (3/4) 512 512 7
    ⟨by norm_num, by norm_num⟩).1 (by norm_num)).1

/-- C5: handle_request never raises on a dict request; a command string that
is none of the eleven known commands produces exactly the response
`{"request_id": rid, "error": "Unknown command: <command>"}`; and each of the
eleven known commands takes its own branch of the elif chain — health and
cancel answer directly and every other command invokes its backend call
through the `{"request_id": rid, **result}` / error-wrapping boundary, so no
known command can reach the unknown-command arm. -/
theorem unknown_command_dispatch (B : Backends) (fs : List (String × JValue)) :
    exceptIsOk (handle_request B (.obj fs)) = true ∧
    (∀ s : String, objGetD fs "command" (.str "") = .str s →
      (s ∉ knownCommands →
        handle_request B (.obj fs) = .ok (.obj
          [("request_id", objGetD fs "request_id" (.str "")),
           ("error", .str ("Unknown command: " ++ s))])) ∧
      (s = "health" → handle_request B (.obj fs) = .ok (.obj
          [("request_id", objGetD fs "request_id" (.str "")),
           ("status", .str "ok")])) ∧
      (s = "generate_image" → handle_request B (.obj fs) = .ok (mkResp
          (objGetD fs "request_id" (.str ""))
          (B.generate_image (objGetD fs "prompt" (.str ""))
            (objGetD fs "negative_prompt" (.str ""))
            (objGetD fs "steps" (.num 20)) (objGetD fs "cfg_scale" (.num 7))
            (objGetD fs "width" (.num 512)) (objGetD fs "height" (.num 512))
            (objGetD fs "seed" (.num (-1)))))) ∧
      (s = "img2img" → handle_request B (.obj fs) = .ok (mkResp
          (objGetD fs "request_id" (.str ""))
          (B.img2img (objGetD fs "prompt" (.str ""))
            (objGetD fs "init_image" (.str ""))
            (objGetD fs "denoising_strength" (.num (3/4)))
            (objGetD fs "steps" (.num 20)) (objGetD fs "cfg_scale" (.num 7))
            (objGetD fs "seed" (.num (-1)))))) ∧
      (s = "list_image_models" → handle_request B (.obj fs) = .ok
          (match B.list_models with
           | .ok models => .obj
              [("request_id", objGetD fs "request_id" (.str "")),
               ("models", models)]
           | .error e => .obj
              [("request_id", objGetD fs "request_id" (.str "")),
               ("error", .str e)])) ∧
      (s = "tts" → handle_request B (.obj fs) = .ok (mkResp
          (objGetD fs "request_id" (.str ""))
          (B.tts_generate (objGetD fs "text" (.str ""))
            (objGetD fs "voice" (.str "default"))
            (objGetD fs "speed" (.num 1))
            (objGetD fs "engine" (.str "kokoro"))))) ∧
      (s = "list_tts_engines" → handle_request B (.obj fs) = .ok
          (match B.list_engines with
           | .ok engines => .obj
              [("request_id", objGetD fs "request_id" (.str "")),
               ("engines", engines)]
           | .error e => .obj
              [("request_id", objGetD fs "request_id" (.str "")),
               ("error", .str e)])) ∧
      (s = "list_voices" → handle_request B (.obj fs) = .ok
          (match B.list_voices (objGetD fs "engine" (.str "kokoro")) with
           | .ok voices => .obj
              [("request_id", objGetD fs "request_id" (.str "")),
               ("voices", voices)]
           | .error e => .obj
              [("request_id", objGetD fs "request_id" (.str "")),
               ("error", .str e)])) ∧
      (s = "voice_clone" → handle_request B (.obj fs) = .ok (mkResp
          (objGetD fs "request_id" (.str ""))
          (B.voice_clone (objGetD fs "text" (.str ""))
            (objGetD fs "reference_audio" (.str ""))
            (objGetD fs "speed" (.num 1))))) ∧
      (s = "transcribe" → handle_request B (.obj fs) = .ok (mkResp
          (objGetD fs "request_id" (.str ""))
          (B.transcribe (objGetD fs "audio_file" (.str ""))
            (objGetD fs "model" (.str "base"))
            (objGetD fs "language" .null)))) ∧
      (s = "generate_music" → handle_request B (.obj fs) = .ok (mkResp
          (objGetD fs "request_id" (.str ""))
          (B.generate_music (objGetD fs "prompt" (.str ""))
            (objGetD fs "duration" (.num 10))
            (objGetD fs "model_size" (.str "small"))))) ∧
      (s = "cancel" → handle_request B (.obj fs) = .ok (.obj
          [("request_id", objGetD fs "request_id" (.str "")),
           ("status", .str "cancelled")]))) := by
  refine ⟨rfl, ?_⟩
  intro s hs
  refine ⟨?_, ?_, ?_, ?_, ?_, ?_, ?_, ?_, ?_, ?_, ?_, ?_⟩
  · intro hmem
    simp only [knownCommands, List.mem_cons, List.not_mem_nil, or_false,
      not_or] at hmem
    obtain ⟨n1, n2, n3, n4, n5, n6, n7, n8, n9, n10, n11⟩ := hmem
    simp [handle_request, dispatchTry, hs, jEqStr, JValue.pyFormat,
      n1, n2, n3, n4, n5, n6, n7, n8, n9, n10, n11]
  all_goals intro hcmd
  all_goals subst hcmd
  all_goals simp [handle_request, dispatchTry, hs, jEqStr]

/-- C5 witness: the unknown command "frobnicate" yields the unknown-command
error response. -/
theorem unknown_command_dispatch_witness :
    handle_request BStub (.obj
      [("command", .str "frobnicate"), ("request_id", .str "r1")]) =
      .ok (.obj [("request_id", .str "r1"),
                 ("error", .str "Unknown command: frobnicate")]) :=
  ((unknown_command_dispatch BStub
    [("command", .str "frobnicate"), ("request_id", .str "r1")]).2
    "frobnicate" rfl).1 (by decide)

/-- C3: with every backend call raising (message e), handle_request still
returns normally for every dict request, and each backend-invoking command
gets exactly the response `{"request_id": rid, "error": e}`: the dispatch
boundary's except clause converts any handler exception to an error
response. -/
theorem backend_exception_caught (B : Backends) (e : String)
    (hB : B.AllError e) (fs : List (String × JValue)) :
    exceptIsOk (handle_request B (.obj fs)) = true ∧
    (∀ s : String, objGetD fs "command" (.str "") = .str s →
      s ∈ backendCommands →
      handle_request B (.obj fs) = .ok (.obj
        [("request_id", objGetD fs "request_id" (.str "")),
         ("error", .str e)])) := by
  obtain ⟨h1, h2, h3, h4, h5, h6, h7, h8, h9⟩ := hB
  refine ⟨rfl, ?_⟩
  intro s hs hmem
  simp only [backendCommands, List.mem_cons, List.not_mem_nil, or_false] at hmem
  rcases hmem with rfl | rfl | rfl | rfl | rfl | rfl | rfl | rfl | rfl <;>
    simp [handle_request, dispatchTry, hs, jEqStr, mkResp,
      h1, h2, h3, h4, h5, h6, h7, h8, h9]

/-- C3 witness: with the all-raising backend environment, a transcribe
request gets the error response with its request_id. -/
theorem backend_exception_caught_witness :
    handle_request BFail (.obj
      [("command", .str "transcribe"), ("request_id", .str "id1")]) =
      .ok (.obj [("request_id", .str "id1"), ("error", .str "boom")]) :=
  (backend_exception_caught BFail "boom"
    ⟨fun _ _ _ _ _ _ _ => rfl, fun _ _ _ _ _ _ => rfl, rfl,
     fun _ _ _ _ => rfl, rfl, fun _ => rfl, fun _ _ _ => rfl,
     fun _ _ _ => rfl, fun _ _ _ => rfl⟩
    [("command", .str "transcribe"), ("request_id", .str "id1")]).2
    "transcribe" rfl (by decide)

/-- Every branch of the try body returns an object whose (dict-semantics)
"request_id" entry is the rid extracted from the request, provided no
backend result smuggles in a "request_id" key of its own. -/
theorem dispatchTry_request_id (B : Backends) (hB : B.NoRid)
    (cmd rid : JValue) (fs : List (String × JValue)) :
    lookupLast (respObjFields (.ok (dispatchTry B cmd rid fs))) "request_id" =
      some rid := by
  obtain ⟨h1, h2, h3, h4, h5, h6⟩ := hB
  cases cmd with
  | null => rfl
  | bool b => rfl
  | num q => rfl
  | arr items => rfl
  | obj f => rfl
  | str s =>
    by_cases hmem : s ∈ knownCommands
    · simp only [knownCommands, List.mem_cons, List.not_mem_nil, or_false]
        at hmem
      rcases hmem with rfl | rfl | rfl | rfl | rfl | rfl | rfl | rfl | rfl |
        rfl | rfl
      · rfl
      · cases hg : B.generate_image (objGetD fs "prompt" (.str ""))
          (objGetD fs "negative_prompt" (.str ""))
          (objGetD fs "steps" (.num 20)) (objGetD fs "cfg_scale" (.num 7))
          (objGetD fs "width" (.num 512)) (objGetD fs "height" (.num 512))
          (objGetD fs "seed" (.num (-1))) with
        | ok r =>
          have hr := h1 _ _ _ _ _ _ _ _ hg
          simp [dispatchTry, jEqStr, mkResp, hg, respObjFields, lookupLast, hr]
        | error e =>
          simp [dispatchTry, jEqStr, mkResp, hg, respObjFields, lookupLast]
      · cases hg : B.img2img (objGetD fs "prompt" (.str ""))
          (objGetD fs "init_image" (.str ""))
          (objGetD fs "denoising_strength" (.num (3/4)))
          (objGetD fs "steps" (.num 20)) (objGetD fs "cfg_scale" (.num 7))
          (objGetD fs "seed" (.num (-1))) with
        | ok r =>
          have hr := h2 _ _ _ _ _ _ _ hg
          simp [dispatchTry, jEqStr, mkResp, hg, respObjFields, lookupLast, hr]
        | error e =>
          simp [dispatchTry, jEqStr, mkResp, hg, respObjFields, lookupLast]
      · cases hg : B.list_models with
        | ok models => simp [dispatchTry, jEqStr, hg, respObjFields, lookupLast]
        | error e => simp [dispatchTry, jEqStr, hg, respObjFields, lookupLast]
      · cases hg : B.tts_generate (objGetD fs "text" (.str ""))
          (objGetD fs "voice" (.str "default")) (objGetD fs "speed" (.num 1))
          (objGetD fs "engine" (.str "kokoro")) with
        | ok r =>
          have hr := h3 _ _ _ _ _ hg
          simp [dispatchTry, jEqStr, mkResp, hg, respObjFields, lookupLast, hr]
        | error e =>
          simp [dispatchTry, jEqStr, mkResp, hg, respObjFields, lookupLast]
      · cases hg : B.list_engines with
        | ok engines => simp [dispatchTry, jEqStr, hg, respObjFields, lookupLast]
        | error e => simp [dispatchTry, jEqStr, hg, respObjFields, lookupLast]
      · cases hg : B.list_voices (objGetD fs "engine" (.str "kokoro")) with
        | ok voices => simp [dispatchTry, jEqStr, hg, respObjFields, lookupLast]
        | error e => simp [dispatchTry, jEqStr, hg, respObjFields, lookupLast]
      · cases hg : B.voice_clone (objGetD fs "text" (.str ""))
          (objGetD fs "reference_audio" (.str ""))
          (objGetD fs "speed" (.num 1)) with
        | ok r =>
          have hr := h4 _ _ _ _ hg
          simp [dispatchTry, jEqStr, mkResp, hg, respObjFields, lookupLast, hr]
        | error e =>
          simp [dispatchTry, jEqStr, mkResp, hg, respObjFields, lookupLast]
      · cases hg : B.transcribe (objGetD fs "audio_file" (.str ""))
          (objGetD fs "model" (.str "base")) (objGetD fs "language" .null) with
        | ok r =>
          have hr := h5 _ _ _ _ hg
          simp [dispatchTry, jEqStr, mkResp, hg, respObjFields, lookupLast, hr]
        | error e =>
          simp [dispatchTry, jEqStr, mkResp, hg, respObjFields, lookupLast]
      · cases hg : B.generate_music (objGetD fs "prompt" (.str ""))
          (objGetD fs "duration" (.num 10))
          (objGetD fs "model_size" (.str "small")) with
        | ok r =>
          have hr := h6 _ _ _ _ hg
          simp [dispatchTry, jEqStr, mkResp, hg, respObjFields, lookupLast, hr]
        | error e =>
          simp [dispatchTry, jEqStr, mkResp, hg, respObjFields, lookupLast]
      · rfl
    · simp only [knownCommands, List.mem_cons, List.not_mem_nil, or_false,
        not_or] at hmem
      obtain ⟨n1, n2, n3, n4, n5, n6, n7, n8, n9, n10, n11⟩ := hmem
      simp [dispatchTry, jEqStr, respObjFields, lookupLast,
        n1, n2, n3, n4, n5, n6, n7, n8, n9, n10, n11]

/-- C1, amended: every response produced by handle_request — i.e. the
response to every input line that parses to a JSON object, including
responses where a backend call raised — carries a "request_id" field equal
to the request's request_id (empty string when absent), provided backend
result dicts contain no "request_id" key (true of every shim in the
repository).  The response main writes for a malformed (non-JSON) line,
however, is exactly `{"error": "Invalid JSON: <message>"}` and carries no
request_id field. -/
theorem request_id_echo_amended (B : Backends) (hB : B.NoRid)
    (fs : List (String × JValue)) :
    lookupLast (respObjFields (handle_request B (.obj fs))) "request_id" =
      some (objGetD fs "request_id" (.str "")) ∧
    (∀ loads line msg, pyStrip line ≠ "" →
      loads (pyStrip line) = Except.error msg →
      processLine loads B line =
        some (.ok (.obj [("error", .str ("Invalid JSON: " ++ msg))]))) := by
  refine ⟨?_, ?_⟩
  · exact dispatchTry_request_id B hB _ _ fs
  · intro loads line msg h1 h2
    simp [processLine, h1, h2]

/-- C1 counterexample: the response written for the malformed input line `{`
is `{"error": "Invalid JSON: ..."}` and has no "request_id" field at all, so
the parse-error response does not echo a request identifier. -/
theorem parse_error_response_lacks_request_id :
    processLine loadsStub BStub "\x7b" =
      some (.ok (.obj [("error", .str
        "Invalid JSON: Expecting property name enclosed in double quotes: line 1 column 2 (char 1)")])) ∧
    lookupLast [("error", JValue.str
        "Invalid JSON: Expecting property name enclosed in double quotes: line 1 column 2 (char 1)")]
      "request_id" = none := by
  exact ⟨rfl, rfl⟩

/-- C1 witness: a tts request with request_id "abc" against the concrete
stub backends gets a response whose request_id entry is "abc". -/
theorem request_id_echo_witness :
    lookupLast (respObjFields (handle_request BStub (.obj
      [("command", .str "tts"), ("request_id", .str "abc")]))) "request_id" =
      some (.str "abc") :=
  (request_id_echo_amended BStub
    ⟨fun _ _ _ _ _ _ _ r h => by injection h with h2; rw [← h2]; rfl,
     fun _ _ _ _ _ _ r h => by injection h with h2; rw [← h2]; rfl,
     fun _ _ _ _ r h => by injection h with h2; rw [← h2]; rfl,
     fun _ _ _ r h => by injection h with h2; rw [← h2]; rfl,
     fun _ _ _ r h => by injection h with h2; rw [← h2]; rfl,
     fun _ _ _ r h => by injection h with h2; rw [← h2]; rfl⟩
    [("command", .str "tts"), ("request_id", .str "abc")]).1

/-! ### Lemmas about the numpy fold reductions and sample conversion -/

theorem le_foldl_max (x : ℚ) (l : List ℚ) : x ≤ l.foldl max x := by
  induction l generalizing x with
  | nil => exact le_refl x
  | cons a l ih => exact le_trans (le_max_left x a) (ih (max x a))

theorem le_foldl_max_of_mem {y : ℚ} {l : List ℚ} (h : y ∈ l) (x : ℚ) :
    y ≤ l.foldl max x := by
  induction h generalizing x with
  | head l => exact le_trans (le_max_right x y) (le_foldl_max _ l)
  | tail b _ ih => exact ih (max x b)

theorem foldl_max_le {b x : ℚ} {l : List ℚ} (hx : x ≤ b)
    (h : ∀ y ∈ l, y ≤ b) : l.foldl max x ≤ b := by
  induction l generalizing x with
  | nil => exact hx
  | cons a l ih =>
    exact ih (max_le hx (h a (List.mem_cons_self a l)))
      (fun y hy => h y (List.mem_cons_of_mem _ hy))

theorem foldl_min_le (x : ℚ) (l : List ℚ) : l.foldl min x ≤ x := by
  induction l generalizing x with
  | nil => exact le_refl x
  | cons a l ih => exact le_trans (ih (min x a)) (min_le_left x a)

theorem foldl_min_le_of_mem {y : ℚ} {l : List ℚ} (h : y ∈ l) (x : ℚ) :
    l.foldl min x ≤ y := by
  induction h generalizing x with
  | head l => exact le_trans (foldl_min_le _ l) (min_le_right x y)
  | tail b _ ih => exact ih (min x b)

theorem le_foldl_min {b x : ℚ} {l : List ℚ} (hx : b ≤ x)
    (h : ∀ y ∈ l, b ≤ y) : b ≤ l.foldl min x := by
  induction l generalizing x with
  | nil => exact hx
  | cons a l ih =>
    exact ih (le_min hx (h a (List.mem_cons_self a l)))
      (fun y hy => h y (List.mem_cons_of_mem _ hy))

/-- Every element of a nonempty array is bounded in absolute value by
`max(abs(max), abs(min))`. -/
theorem abs_le_peakOf {y x : ℚ} {l : List ℚ} (h : y ∈ x :: l) :
    |y| ≤ peakOf (x :: l) := by
  have hM : y ≤ l.foldl max x := by
    rcases List.mem_cons.mp h with rfl | h'
    · exact le_foldl_max _ l
    · exact le_foldl_max_of_mem h' x
  have hm : l.foldl min x ≤ y := by
    rcases List.mem_cons.mp h with rfl | h'
    · exact foldl_min_le _ l
    · exact foldl_min_le_of_mem h' x
  rw [abs_le]
  refine ⟨?_, ?_⟩
  · calc -peakOf (x :: l) ≤ -|l.foldl min x| := neg_le_neg (le_max_right _ _)
      _ ≤ l.foldl min x := neg_abs_le _
      _ ≤ y := hm
  · calc y ≤ l.foldl max x := hM
      _ ≤ |l.foldl max x| := le_abs_self _
      _ ≤ peakOf (x :: l) := le_max_left _ _

/-- A sample outside [-1, 1] forces the peak above 1. -/
theorem one_lt_peakOf {x : ℚ} {l : List ℚ}
    (h : ∃ y ∈ x :: l, 1 < |y|) : 1 < peakOf (x :: l) := by
  obtain ⟨y, hy, h1⟩ := h
  exact lt_of_lt_of_le h1 (abs_le_peakOf hy)

/-- All samples in [-1, 1] keep the peak at most 1. -/
theorem peakOf_le_one {x : ℚ} {l : List ℚ}
    (h : ∀ y ∈ x :: l, |y| ≤ 1) : peakOf (x :: l) ≤ 1 := by
  have hx := abs_le.mp (h x (List.mem_cons_self x l))
  have hM : |l.foldl max x| ≤ 1 := by
    rw [abs_le]
    refine ⟨?_, ?_⟩
    · exact le_trans hx.1 (le_foldl_max x l)
    · exact foldl_max_le hx.2
        (fun y hy => (abs_le.mp (h y (List.mem_cons_of_mem _ hy))).2)
  have hm : |l.foldl min x| ≤ 1 := by
    rw [abs_le]
    refine ⟨?_, ?_⟩
    · exact le_foldl_min hx.1
        (fun y hy => (abs_le.mp (h y (List.mem_cons_of_mem _ hy))).1)
    · exact le_trans (foldl_min_le x l) hx.2
  exact max_le hM hm

/-- On a nonempty array the two encoders' normalization branches agree: the
voice-clone condition `max > 1 or min < -1` fires exactly when the music-gen
peak exceeds 1, and both divide by the same peak; hence the two
`_array_to_wav` bodies compute the same normalized array. -/
theorem VC_normalize_eq_MG {xs : List ℚ} (h : xs ≠ []) :
    MLXVoiceClone.normalize xs = .ok (MLXMusicGen.normalize xs) := by
  cases xs with
  | nil => exact absurd rfl h
  | cons x l =>
    by_cases hc : 1 < l.foldl max x ∨ l.foldl min x < -1
    · have hpeak : 1 < peakOf (x :: l) := by
        rcases hc with hc | hc
        · exact lt_of_lt_of_le hc
            (le_trans (le_abs_self _) (le_max_left _ _))
        · have h1 : 1 < |l.foldl min x| := by
            rw [abs_of_neg (lt_trans hc (by norm_num))]
            linarith
          exact lt_of_lt_of_le h1 (le_max_right _ _)
      simp only [MLXVoiceClone.normalize, MLXMusicGen.normalize,
        if_pos hc, if_pos hpeak]
    · have hpeak : ¬ 1 < peakOf (x :: l) := by
        push_neg at hc ⊢
        have hmM : l.foldl min x ≤ l.foldl max x :=
          le_trans (foldl_min_le x l) (le_foldl_max x l)
        have h1 : |l.foldl max x| ≤ 1 := abs_le.mpr ⟨by linarith, hc.1⟩
        have h2 : |l.foldl min x| ≤ 1 := abs_le.mpr ⟨hc.2, by linarith⟩
        exact max_le h1 h2
      simp only [MLXVoiceClone.normalize, MLXMusicGen.normalize,
        if_neg hc, if_neg hpeak]

/-- The music-gen normalization does not change the number of samples. -/
theorem MG_normalize_length (xs : List ℚ) :
    (MLXMusicGen.normalize xs).length = xs.length := by
  cases xs with
  | nil => rfl
  | cons x l =>
    simp only [MLXMusicGen.normalize]
    split
    · rw [List.length_map]
    · rfl

/-- Truncation toward zero respects an absolute-value bound by a natural
number. -/
theorem ratTrunc_abs_le {q : ℚ} {n : ℕ} (h : |q| ≤ (n : ℚ)) :
    -(n : ℤ) ≤ ratTrunc q ∧ ratTrunc q ≤ (n : ℤ) := by
  obtain ⟨hlow, hhigh⟩ := abs_le.mp h
  unfold ratTrunc
  by_cases hq : 0 ≤ q
  · rw [if_pos hq]
    have hf1 : ⌊q⌋ ≤ ⌊(n : ℚ)⌋ := Int.floor_mono hhigh
    have hf2 : ⌊(n : ℚ)⌋ = (n : ℤ) := Int.floor_natCast n
    have hf3 : 0 ≤ ⌊q⌋ := Int.floor_nonneg.mpr hq
    exact ⟨by omega, by omega⟩
  · rw [if_neg hq]
    have hc0 : ⌈q⌉ ≤ 0 := Int.ceil_le.mpr (by push_cast; linarith [not_le.mp hq])
    have hc1 : ⌈(-(n : ℚ))⌉ ≤ ⌈q⌉ := Int.ceil_mono hlow
    have hc2 : ⌈(-(n : ℚ))⌉ = -(n : ℤ) := by
      rw [Int.ceil_neg, Int.floor_natCast]
    exact ⟨by omega, by omega⟩

/-- A sample in [-1, 1], scaled by 32767 and converted to int16, lies in
[-32767, 32767]: no wrap-around occurs. -/
theorem toInt16_range {q : ℚ} (h : |q| ≤ 1) :
    -32767 ≤ toInt16 q ∧ toInt16 q ≤ 32767 := by
  have h1 : |q * 32767| ≤ ((32767 : ℕ) : ℚ) := by
    rw [abs_mul]
    calc |q| * |(32767 : ℚ)| ≤ 1 * |(32767 : ℚ)| :=
        mul_le_mul_of_nonneg_right h (abs_nonneg _)
      _ = ((32767 : ℕ) : ℚ) := by norm_num
  obtain ⟨h2, h3⟩ := ratTrunc_abs_le h1
  unfold toInt16 int16wrap
  have h4 : (0 : ℤ) ≤ ratTrunc (q * 32767) + 32768 := by omega
  have h5 : ratTrunc (q * 32767) + 32768 < 65536 := by omega
  rw [Int.emod_eq_of_lt h4 h5]
  omega

/-- The int16 conversion of an all-in-range sample list stays within
[-32767, 32767]. -/
theorem toInt16_mem_range {zs : List ℚ} (h : ∀ z ∈ zs, |z| ≤ 1) :
    ∀ v ∈ zs.map toInt16, -32767 ≤ v ∧ v ≤ 32767 := by
  intro v hv
  obtain ⟨z, hz, rfl⟩ := List.mem_map.mp hv
  exact toInt16_range (h z hz)

/-- Dividing any element of a nonempty array by a peak above 1 lands in
[-1, 1]. -/
theorem abs_div_peakOf_le_one {y x : ℚ} {l : List ℚ} (hy : y ∈ x :: l)
    (hpeak : 1 < peakOf (x :: l)) : |y / peakOf (x :: l)| ≤ 1 := by
  have h0 : 0 < peakOf (x :: l) := lt_trans one_pos hpeak
  rw [abs_div, abs_of_pos h0, div_le_one h0]
  exact abs_le_peakOf hy

/-- `int_data.tobytes()` has two bytes per int16 sample. -/
theorem pcm_length (d : List ℤ) :
    ((d.map i16leBytes).flatten).length = 2 * d.length := by
  induction d with
  | nil => rfl
  | cons a l ih =>
    simp only [List.map_cons, List.flatten_cons, List.length_append,
      List.length_cons, ih, i16leBytes, List.length_nil]
    omega

set_option maxHeartbeats 1600000 in
/-- Byte layout of the buffer written by `_array_to_wav`: total size
44 + 2·(number of int16 samples), the RIFF chunk size at offset 4, the fmt
fields at offsets 24-35, the data chunk size at offset 40, and the PCM
payload from offset 44 on. -/
theorem wavBytes_layout (d : List ℤ) (R : ℕ) :
    (wavBytes d R).length = 44 + 2 * d.length ∧
    ((wavBytes d R).drop 4).take 4 = packU32le (36 + d.length * 2) ∧
    ((wavBytes d R).drop 24).take 4 = packU32le R ∧
    ((wavBytes d R).drop 28).take 4 = packU32le (R * 2) ∧
    ((wavBytes d R).drop 32).take 2 = packU16le 2 ∧
    ((wavBytes d R).drop 34).take 2 = packU16le 16 ∧
    ((wavBytes d R).drop 40).take 4 = packU32le (d.length * 2) ∧
    (wavBytes d R).drop 44 = (d.map i16leBytes).flatten := by
  refine ⟨?_, rfl, rfl, rfl, rfl, rfl, rfl, rfl⟩
  simp only [wavBytes, packU32le, packU16le, List.length_append,
    List.length_cons, List.length_nil, pcm_length]

/-- C2, amended: for every sample array and rate the music-gen
`_array_to_wav` returns exactly 44 + 2N bytes laid out as the claim states
(RIFF size 36+2N at offset 4, rate at 24, byte-rate 2R at 28, block align 2
at 32, bits 16 at 34, data size 2N at 40, then the N little-endian int16
samples); the voice-clone variant returns the identical byte string for
every nonempty array, but raises on the empty array instead of returning a
44-byte header.  The range hypotheses mirror struct.pack's "<I" domain,
outside which the source raises struct.error instead of producing bytes. -/
theorem wav_layout_amended (xs : List ℚ) (R : ℕ)
    (h1 : 36 + 2 * xs.length < 2 ^ 32) (h2 : 2 * R < 2 ^ 32) :
    (MLXMusicGen.arrayToWav xs R).length = 44 + 2 * xs.length ∧
    ((MLXMusicGen.arrayToWav xs R).drop 4).take 4 =
      packU32le (36 + 2 * xs.length) ∧
    ((MLXMusicGen.arrayToWav xs R).drop 24).take 4 = packU32le R ∧
    ((MLXMusicGen.arrayToWav xs R).drop 28).take 4 = packU32le (2 * R) ∧
    ((MLXMusicGen.arrayToWav xs R).drop 32).take 2 = packU16le 2 ∧
    ((MLXMusicGen.arrayToWav xs R).drop 34).take 2 = packU16le 16 ∧
    ((MLXMusicGen.arrayToWav xs R).drop 40).take 4 =
      packU32le (2 * xs.length) ∧
    (MLXMusicGen.arrayToWav xs R).drop 44 =
      (((MLXMusicGen.normalize xs).map toInt16).map i16leBytes).flatten ∧
    (xs ≠ [] →
      MLXVoiceClone.arrayToWav xs R = .ok (MLXMusicGen.arrayToWav xs R)) := by
  have hlen : ((MLXMusicGen.normalize xs).map toInt16).length = xs.length := by
    rw [List.length_map, MG_normalize_length]
  obtain ⟨L1, L2, L3, L4, L5, L6, L7, L8⟩ :=
    wavBytes_layout ((MLXMusicGen.normalize xs).map toInt16) R
  refine ⟨?_, ?_, L3, ?_, L5, L6, ?_, L8, ?_⟩
  · rw [MLXMusicGen.arrayToWav] at *
    omega
  · rw [MLXMusicGen.arrayToWav, L2, hlen, Nat.mul_comm]
  · rw [MLXMusicGen.arrayToWav, L4, Nat.mul_comm]
  · rw [MLXMusicGen.arrayToWav, L7, hlen, Nat.mul_comm]
  · intro hne
    rw [MLXVoiceClone.arrayToWav, VC_normalize_eq_MG hne]
    rfl

/-- C2 counterexample: on the empty sample array the voice-clone
`_array_to_wav` raises (numpy's max() of a zero-size array) instead of
returning the 44-byte header the claim promises for N = 0. -/
theorem wav_voice_clone_empty_cex :
    MLXVoiceClone.arrayToWav ([] : List ℚ) 8000 =
      .error "zero-size array to reduction operation maximum which has no identity" ∧
    exceptIsOk (MLXVoiceClone.arrayToWav ([] : List ℚ) 8000) = false :=
  ⟨rfl, rfl⟩

/-- C2 witness: one sample at rate 8000 gives a 46-byte file, and the
voice-clone encoder produces the identical bytes. -/
theorem wav_layout_witness :
    (MLXMusicGen.arrayToWav [(1/2 : ℚ)] 8000).length = 46 ∧
    MLXVoiceClone.arrayToWav [(1/2 : ℚ)] 8000 =
      .ok (MLXMusicGen.arrayToWav [(1/2 : ℚ)] 8000) := by
  have h := wav_layout_amended [(1/2 : ℚ)] 8000 (by norm_num) (by norm_num)
  exact ⟨by simpa using h.1,
    h.2.2.2.2.2.2.2.2 (by simp)⟩

/-- C6, amended: if some sample has absolute value above 1, both encoders
divide every sample by the peak absolute value and every converted int16
sample lies in [-32767, 32767]; if all samples lie in [-1, 1] the array is
passed to the 32767 scaling unchanged (for the voice-clone variant on a
nonempty array: on the empty array it raises instead of encoding) and the
converted samples again lie in [-32767, 32767]. -/
theorem wav_normalization_amended (xs : List ℚ) :
    ((∃ y ∈ xs, 1 < |y|) →
      MLXMusicGen.normalize xs = xs.map (· / peakOf xs) ∧
      MLXVoiceClone.normalize xs = .ok (xs.map (· / peakOf xs)) ∧
      1 < peakOf xs ∧
      (∀ v ∈ (MLXMusicGen.normalize xs).map toInt16,
        -32767 ≤ v ∧ v ≤ 32767)) ∧
    ((∀ y ∈ xs, |y| ≤ 1) →
      MLXMusicGen.normalize xs = xs ∧
      (xs ≠ [] → MLXVoiceClone.normalize xs = .ok xs) ∧
      (∀ v ∈ (MLXMusicGen.normalize xs).map toInt16,
        -32767 ≤ v ∧ v ≤ 32767)) := by
  refine ⟨?_, ?_⟩
  · intro hex
    cases xs with
    | nil => obtain ⟨y, hy, _⟩ := hex; cases hy
    | cons x l =>
      have hpeak := one_lt_peakOf hex
      have hMG : MLXMusicGen.normalize (x :: l) =
          (x :: l).map (· / peakOf (x :: l)) := by
        simp only [MLXMusicGen.normalize, if_pos hpeak]
      have hbound : ∀ z ∈ (x :: l).map (· / peakOf (x :: l)), |z| ≤ 1 := by
        intro z hz
        obtain ⟨y, hy, rfl⟩ := List.mem_map.mp hz
        exact abs_div_peakOf_le_one hy hpeak
      refine ⟨hMG, ?_, hpeak, ?_⟩
      · rw [VC_normalize_eq_MG (List.cons_ne_nil x l), hMG]
      · rw [hMG]
        exact toInt16_mem_range hbound
  · intro hall
    cases xs with
    | nil => exact ⟨rfl, fun hne => absurd rfl hne, by intro v hv; cases hv⟩
    | cons x l =>
      have hMG : MLXMusicGen.normalize (x :: l) = x :: l := by
        simp only [MLXMusicGen.normalize,
          if_neg (not_lt.mpr (peakOf_le_one hall))]
      refine ⟨hMG, ?_, ?_⟩
      · intro hne
        rw [VC_normalize_eq_MG hne, hMG]
      · rw [hMG]
        exact toInt16_mem_range hall

/-- C6 counterexample: the empty array — all of whose samples (vacuously)
lie in [-1, 1] — is not passed through unchanged by the voice-clone
encoder: its normalization raises, so nothing is scaled or encoded. -/
theorem wav_normalize_empty_cex :
    MLXVoiceClone.normalize ([] : List ℚ) =
      .error "zero-size array to reduction operation maximum which has no identity" ∧
    exceptIsOk (MLXVoiceClone.normalize ([] : List ℚ)) = false :=
  ⟨rfl, rfl⟩

/-- C6 witness: the array [2] with a sample above 1 is normalized by both
encoders to [1], whose int16 conversion is 32767. -/
theorem wav_normalization_witness :
    MLXMusicGen.normalize [(2 : ℚ)] = [(1 : ℚ)] ∧
    MLXVoiceClone.normalize [(2 : ℚ)] = .ok [(1 : ℚ)] ∧
    toInt16 1 = 32767 := by
  have h := (wav_normalization_amended [(2 : ℚ)]).1
    ⟨2, List.mem_singleton.mpr rfl, by norm_num⟩
  have hpk : peakOf [(2 : ℚ)] = 2 := by
    simp [peakOf]
  have hmap : [(2 : ℚ)].map (· / peakOf [(2 : ℚ)]) = [(1 : ℚ)] := by
    rw [hpk]
    norm_num
  have ht : toInt16 1 = 32767 := by
    unfold toInt16 ratTrunc int16wrap
    rw [one_mul, if_pos (by norm_num : (0:ℚ) ≤ 32767), Int.floor_ofNat]
    decide
  exact ⟨hmap ▸ h.1, hmap ▸ h.2.1, ht⟩
